import Mathlib

/-
Shallow embedding of the mailpopbox SMTP session core (package smtp,
file src/smtp/conn.go; src/unnamed/part_000 is an earlier revision of the
same file and the current conn.go is taken as the authority where they
differ).  Strings model Go byte slices and strings under the ASCII
convention: one Lean Char per Go byte.  External collaborators (the
Server interface) and Go library functions (mail.ParseAddress,
base64.StdEncoding.DecodeString, regexp matching, DNS lookup, time
formatting, TLS handshakes) are oracle parameters: the embedding models
exactly the code the repository itself executes on their results.
-/

set_option maxRecDepth 16384

namespace Mailpopbox

/-- ASCII uppercase of one character, the ASCII fragment of Go
strings.ToUpper (all inputs the embedding compares are ASCII). -/
def asciiUpper (c : Char) : Char :=
  if 'a' ≤ c ∧ c ≤ 'z' then Char.ofNat (c.toNat - 32) else c

/-- ASCII lowercase of one character, the ASCII fragment of Go
strings.ToLower. -/
def asciiLower (c : Char) : Char :=
  if 'A' ≤ c ∧ c ≤ 'Z' then Char.ofNat (c.toNat + 32) else c

/-- Go strings.ToUpper restricted to ASCII. -/
def strToUpper (s : String) : String := String.mk (s.data.map asciiUpper)

/-- Go strings.ToLower restricted to ASCII. -/
def strToLower (s : String) : String := String.mk (s.data.map asciiLower)

/-- Go len(s) on a string of ASCII bytes. -/
def strLen (s : String) : Nat := s.data.length

/-- Go s[:n] on a string of ASCII bytes. -/
def strTake (s : String) (n : Nat) : String := String.mk (s.data.take n)

/-- Go s[n:] on a string of ASCII bytes. -/
def strDrop (s : String) (n : Nat) : String := String.mk (s.data.drop n)

/-- Go strings.HasPrefix / bytes.HasPrefix. -/
def strHasPfx (s pfx : String) : Bool := pfx.data.isPrefixOf s.data

/-- Accumulator pass of `goFields`: splits a character list into maximal
runs of non-whitespace characters, the token stream that successive `%s`
verbs of fmt.Sscanf produce. -/
def goFieldsAux : List Char → List Char → List (List Char)
  | [], cur => if cur = [] then [] else [cur.reverse]
  | c :: rest, cur =>
    if c.isWhitespace then
      if cur = [] then goFieldsAux rest []
      else cur.reverse :: goFieldsAux rest []
    else goFieldsAux rest (c :: cur)

/-- Whitespace-separated tokens of a line, as scanned by fmt.Sscanf with
a format of `%s` verbs: fmt.Sscanf(line, "%s", &cmd) yields the head,
"%s %s" the first two tokens, and so on; it errors when the line has
fewer tokens than verbs. -/
def goFields (s : String) : List String :=
  (goFieldsAux s.data []).map String.mk

/-- Every token produced by `goFieldsAux` is a non-empty character
list. -/
theorem goFieldsAux_ne_nil (cs : List Char) :
    ∀ cur t, t ∈ goFieldsAux cs cur → t ≠ [] := by
  induction cs with
  | nil =>
    intro cur t ht
    by_cases hcur : cur = []
    · simp [goFieldsAux, hcur] at ht
    · simp [goFieldsAux, hcur] at ht
      subst ht
      simpa using hcur
  | cons c rest ih =>
    intro cur t ht
    by_cases hws : c.isWhitespace
    · by_cases hcur : cur = []
      · simp [goFieldsAux, hws, hcur] at ht
        exact ih [] t ht
      · simp [goFieldsAux, hws, hcur] at ht
        rcases ht with h | h
        · subst h; simpa using hcur
        · exact ih [] t h
    · simp [goFieldsAux, hws] at ht
      exact ih (c :: cur) t ht

/-- Every token produced by `goFields` is a non-empty string. -/
theorem goFields_ne_empty (s : String) (t : String) (ht : t ∈ goFields s) :
    t ≠ "" := by
  unfold goFields at ht
  rcases List.mem_map.mp ht with ⟨cs, hcs, hmk⟩
  have hne : cs ≠ [] := goFieldsAux_ne_nil s.data [] cs hcs
  intro h
  subst hmk
  apply hne
  have : cs = ("" : String).data := congrArg String.data h
  simpa using this

/-- Go strings.Split of a character list on a single separator
character; like Go, empty fields are preserved and splitting the empty
input yields one empty field. -/
def splitOnChar (sep : Char) : List Char → List (List Char)
  | [] => [[]]
  | c :: rest =>
    let r := splitOnChar sep rest
    if c = sep then [] :: r
    else
      match r with
      | [] => [[c]]
      | h :: t => (c :: h) :: t

/-- Go bytes.SplitAfter on the separator "\n": splits after every
newline, keeping the newline at the end of each piece. -/
def splitAfterNL : List Char → List (List Char)
  | [] => [[]]
  | c :: rest =>
    let r := splitAfterNL rest
    if c = '\n' then [c] :: r
    else
      match r with
      | [] => [[c]]
      | h :: t => (c :: h) :: t

/-- Go bytes.Index(data, []byte("\n\n")): byte index of the first blank
line separating headers from body; none models the -1 result. -/
def indexNLNL : List Char → Option Nat
  | '\n' :: '\n' :: _ => some 0
  | _ :: rest => (indexNLNL rest).map (· + 1)
  | [] => none

/-- Go bytes.LastIndexByte, with -1 for a missing byte. -/
def lastIndexByte (cs : List Char) (b : Char) : Int :=
  match cs.reverse.findIdx? (· = b) with
  | none => -1
  | some k => Int.ofNat (cs.length - 1 - k)

/-- Go strings.Index(params, ">") specialised to a one-byte needle:
index of the first occurrence, none for -1. -/
def indexOfChar (cs : List Char) (b : Char) : Option Nat :=
  cs.findIdx? (· = b)

/-- Protocol state of a connection: the `state` enumeration of
conn.go. -/
inductive SState where
  | new
  | initial
  | mail
  | recipient
  | data
deriving DecidableEq, Repr

/-- Delivery classification: the `delivery` enumeration of conn.go. -/
inductive Delivery where
  | unknown
  | inbound
  | outbound
deriving DecidableEq, Repr

/-- Modelled from the spec: ReplyLine, declared in a repository file not
under src/ — a numeric SMTP code with an optional message, an immutable
value compared for equality against the canonical OK reply. -/
structure ReplyLine where
  code : Nat
  message : String
deriving DecidableEq, Repr

/-- Modelled from the spec: the canonical OK reply (250) declared
outside src/; doRCPT and doMAIL compare VerifyAddress results against
it, and parsePath returns it on success. -/
def ReplyOK : ReplyLine := ⟨250, "OK"⟩

/-- Modelled from the spec: the 501-class syntax-error reply declared
outside src/ (the error taxonomy gives syntax errors a 500/501-class
code distinct from 250). -/
def ReplyBadSyntax : ReplyLine := ⟨501, "syntax error"⟩

/-- Modelled from the spec: the `503 bad sequence` reply declared
outside src/. -/
def ReplyBadSequence : ReplyLine := ⟨503, "bad sequence of commands"⟩

/-- Modelled from the spec: the distinguished auth-success reply (235)
declared outside src/. -/
def ReplyAuthOK : ReplyLine := ⟨235, "authentication successful"⟩

/-- Go net/mail Address: a display name plus an addr-spec string. -/
structure MailAddress where
  name : String
  address : String
deriving DecidableEq, Repr, Inhabited

/-- Modelled from the spec: DomainForAddressString, declared in a
repository file not under src/ — the domain component of an address
string used for the canonical relay-authorisation comparison; the part
after the last `@`, empty for a string without one (such as the empty
authcid of an unauthenticated session). -/
def DomainForAddressString (address : String) : String :=
  match address.data.reverse.findIdx? (· = '@') with
  | none => ""
  | some k => String.mk (address.data.drop (address.data.length - k))

/-- Modelled from the spec: DomainForAddress, declared outside src/ —
the domain of a parsed address. -/
def DomainForAddress (addr : MailAddress) : String :=
  DomainForAddressString addr.address

/-- The Envelope record handed to DeliverMessage / RelayMessage.  The
Received timestamp is carried as its already-formatted RFC 1123 string
(an oracle: time formatting is Go library code), the ID as the opaque
string generateEnvelopeId returns. -/
structure Envelope where
  remoteAddr : String
  ehlo : String
  mailFrom : MailAddress
  rcptTo : List MailAddress
  received : String
  id : String
  data : String
deriving DecidableEq, Repr

/-- Per-connection session state: the `connection` struct of conn.go.
The tls pointer is modelled by its presence (true iff conn.tls is
non-nil); the unused sendAs field and the collaborator/log handles are
omitted. -/
structure Conn where
  remoteAddr : String
  esmtp : Bool
  tls : Bool
  authc : String
  state : SState
  line : String
  delivery : Delivery
  ehlo : String
  mailFrom : Option MailAddress
  rcptTo : List MailAddress
deriving DecidableEq, Repr

/-- The connection value AcceptConnection builds for a fresh socket:
stateNew plus Go zero values for every other field. -/
def newConnection (remoteAddr : String) : Conn :=
  { remoteAddr := remoteAddr
    esmtp := false
    tls := false
    authc := ""
    state := .new
    line := ""
    delivery := .unknown
    ehlo := ""
    mailFrom := none
    rcptTo := [] }

/-- Go regexp FindSubmatchIndex result for the send-as subject tag:
byte offsets of the whole match and of the captured local-part
submatch. -/
structure SendAsMatch where
  matchStart : Nat
  matchEnd : Nat
  userStart : Nat
  userEnd : Nat
deriving DecidableEq, Repr

/-- The Server collaborator interface consumed by the session (its
implementation lives outside this core).  TLSConfig() is abstracted to
the availability bit the handlers branch on; RelayMessage returns
nothing and is recorded as an output event. -/
structure Server where
  name : String
  tlsConfigAvailable : Bool
  verifyAddress : MailAddress → ReplyLine
  authenticate : String → String → String → Bool
  deliverMessage : Envelope → Option ReplyLine

/-- External function oracles fixed for a session: the Server
collaborator, Go net/mail address parsing, base64 decoding, and the
SendAsSubject regular expression's submatch search. -/
structure World where
  server : Server
  parseAddress : String → Option MailAddress
  base64Decode : String → Option String
  findSendAs : String → Option SendAsMatch

/-- Per-command oracle data: the command line ReadLine produced, the
continuation line a two-step AUTH reads, the TLS handshake outcome, the
ReadDotBytes result for DATA, and the strings generated for the
envelope (id, formatted timestamp, reverse-DNS display, rendered TLS
transport description). -/
structure LineInput where
  line : String
  authLine : Option String
  handshakeOK : Bool
  dataBody : Option String
  envId : String
  dateStr : String
  lookupRemote : String
  tlsTransport : String

/-- One observable action of the session: a reply line, a raw
capability line, a hand-off to DeliverMessage or RelayMessage, or
closing the connection. -/
inductive OutEvent where
  | reply (code : Nat) (message : String)
  | rawLine (line : String)
  | delivered (env : Envelope)
  | relayed (env : Envelope)
  | closed
deriving DecidableEq, Repr

/-- conn.reply: write a ReplyLine. -/
def replyOut (r : ReplyLine) : OutEvent := .reply r.code r.message

/-- parsePath (conn.go): checks the case-insensitive literal command
prefix on conn.line, then takes everything up to and including the
first `>` in the parameters, lower-cased.  Returns the path together
with ReplyOK on success. -/
def parsePath (c : Conn) (command : String) : String × ReplyLine :=
  if strLen c.line < strLen command then ("", ReplyBadSyntax)
  else if strToUpper command ≠ strToUpper (strTake c.line (strLen command)) then
    ("", ⟨500, "unrecognized command"⟩)
  else
    let params := strDrop c.line (strLen command)
    match indexOfChar params.data '>' with
    | none => ("", ReplyBadSyntax)
    | some idx => (strToLower (strTake params (idx + 1)), ReplyOK)

/-- resetBuffers (conn.go): clears the transaction-scoped fields. -/
def resetBuffers (c : Conn) : Conn :=
  { c with delivery := .unknown, mailFrom := none, rcptTo := [] }

/-- doEHLO (conn.go): resets the transaction buffers first, then scans
`%s %s`; a line with fewer than two tokens is a syntax error (but the
buffers stay cleared).  On success stores the client name, emits the
single-line HELO reply or the multi-line EHLO capability list
(STARTTLS only when a TLS config exists and TLS is not yet active,
AUTH PLAIN only under TLS), and enters stateInitial. -/
def doEHLO (srv : Server) (c : Conn) : Conn × List OutEvent :=
  let c := resetBuffers c
  match goFields c.line with
  | cmd :: arg :: _ =>
    let c := { c with ehlo := arg }
    if cmd = "HELO" then
      ({ c with state := .initial },
       [.reply 250 ("Hello " ++ arg ++ " [" ++ c.remoteAddr ++ "]")])
    else
      ({ c with state := .initial },
       [OutEvent.rawLine ("250-Hello " ++ arg ++ " [" ++ c.remoteAddr ++ "]")]
         ++ (if srv.tlsConfigAvailable ∧ ¬c.tls then [OutEvent.rawLine "250-STARTTLS"] else [])
         ++ (if c.tls then [OutEvent.rawLine "250-AUTH PLAIN"] else [])
         ++ [OutEvent.rawLine "250 SIZE 40960000"])
  | _ => (c, [replyOut ReplyBadSyntax])

/-- doSTARTTLS (conn.go): requires stateInitial, negotiated ESMTP and
an available TLS configuration — nothing else; in particular it does
not test whether TLS is already active.  Emits 220, runs the handshake
(outcome given by the oracle; a failed handshake leaves the connection
fields untouched and the session silently continues to the next read),
and on success rebinds the transport, records the TLS metadata and
resets the protocol state to stateNew. -/
def doSTARTTLS (srv : Server) (inp : LineInput) (c : Conn) : Conn × List OutEvent :=
  if c.state ≠ .initial then (c, [replyOut ReplyBadSequence])
  else if ¬c.esmtp ∨ ¬srv.tlsConfigAvailable then
    (c, [.reply 500 "unrecognized command"])
  else if ¬inp.handshakeOK then
    (c, [.reply 220 "initiate TLS connection"])
  else
    ({ c with state := .new, tls := true },
     [.reply 220 "initiate TLS connection"])

/-- Tail of doAUTH (conn.go) from the base64 decode onward: split the
decoded bytes on NUL, require exactly three fields, delegate to
Authenticate, and on success record the authcid (field 1) and emit the
auth-OK reply.  `pre` carries replies already written (the 334
prompt in the two-step form). -/
def authFinish (w : World) (c : Conn) (pre : List OutEvent)
    (decoded : Option String) : Conn × List OutEvent :=
  match decoded with
  | none => (c, pre ++ [replyOut ReplyBadSyntax])
  | some authBytes =>
    let authParts := (splitOnChar '\x00' authBytes.data).map String.mk
    if authParts.length ≠ 3 then (c, pre ++ [replyOut ReplyBadSyntax])
    else if ¬w.server.authenticate (authParts.get! 0) (authParts.get! 1) (authParts.get! 2) then
      (c, pre ++ [.reply 535 "invalid credentials"])
    else
      ({ c with authc := authParts.get! 1 }, pre ++ [replyOut ReplyAuthOK])

/-- doAUTH (conn.go): requires stateInitial under TLS, rejects a second
AUTH after success, scans `%s %s %s` (n = number of tokens scanned,
capped at 3).  Only PLAIN is recognised.  When n = 2 the line must end
in a space byte or it is a syntax error; an empty initial response then
triggers the 334 prompt and one further ReadLine whose result becomes
the payload.  The payload is base64-decoded and finished by
`authFinish`. -/
def doAUTH (w : World) (inp : LineInput) (c : Conn) : Conn × List OutEvent :=
  if c.state ≠ .initial ∨ ¬c.tls then (c, [replyOut ReplyBadSequence])
  else if c.authc ≠ "" then (c, [.reply 503 "already authenticated"])
  else
    let toks := goFields c.line
    let n := min toks.length 3
    if n < 2 then (c, [replyOut ReplyBadSyntax])
    else if toks.get! 1 ≠ "PLAIN" then (c, [.reply 504 "unrecognized auth type"])
    else if n = 2 ∧ c.line.data.getLast? ≠ some ' ' then (c, [replyOut ReplyBadSyntax])
    else
      let authString := if 3 ≤ toks.length then toks.get! 2 else ""
      if authString = "" then
        match inp.authLine with
        | none => (c, [.reply 334 " ", replyOut ReplyBadSyntax])
        | some contLine => authFinish w c [.reply 334 " "] (w.base64Decode contLine)
      else
        authFinish w c [] (w.base64Decode authString)

/-- doMAIL (conn.go): requires stateInitial, parses the reverse path,
stores the parsed sender (nil on a parse failure, which is then a
syntax error).  A sender VerifyAddress accepts is relay: it requires
the sender domain to equal the authenticated identity's domain, else
`550 not authenticated`; on match the delivery is outbound.  Any other
sender is inbound.  Success enters stateMail with ReplyOK. -/
def doMAIL (w : World) (c : Conn) : Conn × List OutEvent :=
  if c.state ≠ .initial then (c, [replyOut ReplyBadSequence])
  else
    let pr := parsePath c "MAIL FROM:"
    if pr.2 ≠ ReplyOK then (c, [replyOut pr.2])
    else
      let parsed := w.parseAddress pr.1
      let c := { c with mailFrom := parsed }
      match parsed with
      | none => (c, [replyOut ReplyBadSyntax])
      | some addr =>
        if w.server.verifyAddress addr = ReplyOK then
          if DomainForAddress addr ≠ DomainForAddressString c.authc then
            (c, [.reply 550 "not authenticated"])
          else
            ({ c with delivery := .outbound, state := .mail }, [replyOut ReplyOK])
        else
          ({ c with delivery := .inbound, state := .mail }, [replyOut ReplyOK])

/-- doRCPT (conn.go): requires stateMail or stateRecipient, parses the
forward path (parse failures reply without mutating).  A VerifyAddress
rejection blocks the recipient only when the delivery is inbound;
otherwise the recipient is appended and the state becomes
stateRecipient. -/
def doRCPT (w : World) (c : Conn) : Conn × List OutEvent :=
  if c.state ≠ .mail ∧ c.state ≠ .recipient then (c, [replyOut ReplyBadSequence])
  else
    let pr := parsePath c "RCPT TO:"
    if pr.2 ≠ ReplyOK then (c, [replyOut pr.2])
    else
      match w.parseAddress pr.1 with
      | none => (c, [replyOut ReplyBadSyntax])
      | some address =>
        if w.server.verifyAddress address ≠ ReplyOK ∧ c.delivery = .inbound then
          (c, [replyOut (w.server.verifyAddress address)])
        else
          ({ c with rcptTo := c.rcptTo ++ [address], state := .recipient },
           [replyOut ReplyOK])

/-- Offsets scan of handleSendAs (conn.go): `var fromIdx, subjectIdx
int` start at 0 — not -1 — and every matching header overwrites the
index, exactly as the Go range loop does. -/
def scanHeaderIdxs (headers : List String) : Int × Int :=
  (List.range headers.length).foldl
    (fun acc i =>
      let header := headers.get! i
      if strHasPfx header "From:" then (Int.ofNat i, acc.2)
      else if strHasPfx header "Subject:" then (acc.1, Int.ofNat i)
      else acc)
    (0, 0)

/-- getTransportString (conn.go): PLAINTEXT without TLS; with TLS the
rendered version/cipher/name description (whose formatting from the
TLS metadata tables is outside the claims and supplied by the
oracle). -/
def getTransportString (inp : LineInput) (c : Conn) : String :=
  if ¬c.tls then "PLAINTEXT" else inp.tlsTransport

/-- getReceivedInfo (conn.go): synthesises the Received trace header.
The protocol token starts as SMTP, gains the E prefix when esmtp is
set and the S suffix when TLS is active; the for-clause appears only
when the envelope has at least one recipient and names the first
one. -/
def getReceivedInfo (w : World) (inp : LineInput) (c : Conn) (envelope : Envelope) : String :=
  let base := "Received: from " ++ c.ehlo ++ " (" ++ inp.lookupRemote ++ ")\r\n        "
  let withTok := "SMTP"
  let withTok := if c.esmtp then "E" ++ withTok else withTok
  let withTok := if c.tls then withTok ++ "S" else withTok
  let base := base ++ "by " ++ w.server.name ++ " (mailpopbox) with " ++ withTok
    ++ " id " ++ envelope.id ++ "\r\n        "
  let base := base ++
    (if 0 < envelope.rcptTo.length then
      "for <" ++ (envelope.rcptTo.get! 0).address ++ ">\r\n        "
     else "")
  base ++ "(using " ++ getTransportString inp c ++ ");\r\n        "
    ++ envelope.received ++ "\r\n"

/-- handleSendAs (conn.go): for outbound deliveries only, locates the
header/body boundary, splits the headers after each newline, scans for
the From and Subject offsets (see `scanHeaderIdxs`: they start at 0,
so the two `= -1` abort checks below are exactly as unreachable as in
the source), matches the send-as tag on the Subject header, and when
it matches strips the tag, replaces the bracketed From address with
`user@<domain of authc>`, and replaces the envelope sender. -/
def handleSendAs (w : World) (c : Conn) (env : Envelope) : Envelope :=
  if c.delivery ≠ .outbound then env
  else
    match indexNLNL env.data.data with
    | none => env
    | some headerIdx =>
      let headers := (splitAfterNL (env.data.data.take headerIdx)).map String.mk
      let idxs := scanHeaderIdxs headers
      let fromIdx := idxs.1
      let subjectIdx := idxs.2
      if subjectIdx = -1 then env
      else if fromIdx = -1 then env
      else
        match w.findSendAs (headers.get! subjectIdx.toNat) with
        | none => env
        | some m =>
          let subjectHeader := headers.get! subjectIdx.toNat
          let sendAsUser := strTake (strDrop subjectHeader m.userStart) (m.userEnd - m.userStart)
          let sendAsAddress := sendAsUser ++ "@" ++ DomainForAddressString c.authc
          let newHeaders := (List.range headers.length).map (fun i =>
            let header := headers.get! i
            if Int.ofNat i = subjectIdx then
              strTake header m.matchStart ++ strDrop header m.matchEnd
            else if Int.ofNat i = fromIdx then
              let addressStart := lastIndexByte header.data '<'
              strTake header (addressStart + 1).toNat ++ sendAsAddress ++ ">\n"
            else header)
          let newData := String.join newHeaders ++ String.mk (env.data.data.drop headerIdx)
          { env with
              data := newData
              mailFrom := { env.mailFrom with address := sendAsAddress } }

/-- The envelope doDATA builds from a successfully read body: the
literal construction, the send-as rewrite, then the trace header
prepended to the data. -/
def dataEnvelope (w : World) (inp : LineInput) (c : Conn)
    (sender : MailAddress) (body : String) : Envelope :=
  let env : Envelope :=
    { remoteAddr := c.remoteAddr
      ehlo := c.ehlo
      mailFrom := sender
      rcptTo := c.rcptTo
      received := inp.dateStr
      id := inp.envId
      data := body }
  let env := handleSendAs w c env
  { env with data := getReceivedInfo w inp c env ++ env.data }

/-- doDATA (conn.go): requires stateRecipient, emits the 354 prompt,
reads the dot-terminated body (oracle; a read failure replies 552 and
aborts).  The Envelope construction dereferences conn.mailFrom; a nil
sender is a runtime panic, modelled as none.  Inbound envelopes go to
DeliverMessage — a non-nil reply is forwarded and the handler returns
with nothing reset; outbound envelopes go to RelayMessage.  Full
success resets the transaction and returns to stateInitial with
ReplyOK. -/
def doDATA (w : World) (inp : LineInput) (c : Conn) : Option (Conn × List OutEvent) :=
  if c.state ≠ .recipient then some (c, [replyOut ReplyBadSequence])
  else
    let out := [OutEvent.reply 354 "Start mail input; end with <CRLF>.<CRLF>"]
    match inp.dataBody with
    | none => some (c, out ++ [.reply 552 "transaction failed"])
    | some body =>
      match c.mailFrom with
      | none => none
      | some sender =>
        let env := dataEnvelope w inp c sender body
        if c.delivery = .inbound then
          match w.server.deliverMessage env with
          | some reply => some (c, out ++ [replyOut reply])
          | none =>
            some ({ resetBuffers c with state := .initial },
                  out ++ [.delivered env, replyOut ReplyOK])
        else if c.delivery = .outbound then
          some ({ resetBuffers c with state := .initial },
                out ++ [.relayed env, replyOut ReplyOK])
        else
          some ({ resetBuffers c with state := .initial },
                out ++ [replyOut ReplyOK])

/-- doRSET (conn.go): return to stateInitial, clear the transaction
buffers, reply OK. -/
def doRSET (c : Conn) : Conn × List OutEvent :=
  ({ resetBuffers c with state := .initial }, [replyOut ReplyOK])

/-- One iteration of the AcceptConnection command loop (conn.go):
store the line, extract the first token (none is a syntax error),
uppercase it and dispatch.  The HELO case assigns esmtp = false and
then falls through into the EHLO case, which assigns esmtp = true
before calling doEHLO — both assignments are kept to mirror the Go
fallthrough.  Returns none when the dispatched handler panics, and
otherwise the new connection, the outputs, and whether the loop
continues (false only for QUIT). -/
def stepLine (w : World) (inp : LineInput) (c : Conn) :
    Option (Conn × List OutEvent × Bool) :=
  let c := { c with line := inp.line }
  match (goFields c.line).head? with
  | none => some (c, [replyOut ReplyBadSyntax], true)
  | some cmd =>
    match strToUpper cmd with
    | "QUIT" => some (c, [.reply 221 "Goodbye", .closed], false)
    | "HELO" =>
      let c := { c with esmtp := false }
      let c := { c with esmtp := true }
      let r := doEHLO w.server c
      some (r.1, r.2, true)
    | "EHLO" =>
      let c := { c with esmtp := true }
      let r := doEHLO w.server c
      some (r.1, r.2, true)
    | "STARTTLS" =>
      let r := doSTARTTLS w.server inp c
      some (r.1, r.2, true)
    | "AUTH" =>
      let r := doAUTH w inp c
      some (r.1, r.2, true)
    | "MAIL" =>
      let r := doMAIL w c
      some (r.1, r.2, true)
    | "RCPT" =>
      let r := doRCPT w c
      some (r.1, r.2, true)
    | "DATA" =>
      (doDATA w inp c).map (fun r => (r.1, r.2, true))
    | "RSET" =>
      let r := doRSET c
      some (r.1, r.2, true)
    | "VRFY" => some (c, [.reply 252 "I\x27ll do my best"], true)
    | "EXPN" => some (c, [.reply 550 "access denied"], true)
    | "NOOP" => some (c, [replyOut ReplyOK], true)
    | "HELP" => some (c, [.reply 250 "https://tools.ietf.org/html/rfc5321"], true)
    | _ => some (c, [.reply 500 "unrecognized command"], true)

/-- The command loop of AcceptConnection over a list of read lines
(the 220 greeting precedes the loop and read errors terminate it;
both are outside the modelled claims): concatenates each step's
outputs, stops consuming input after a step that ends the session,
and propagates a panic as none. -/
def runSession (w : World) (c : Conn) : List LineInput → Option (List OutEvent)
  | [] => some []
  | inp :: rest =>
    match stepLine w inp c with
    | none => none
    | some (c2, out, cont) =>
      if cont then (runSession w c2 rest).map (out ++ ·) else some out

/-- The connection state after the command loop consumes a list of
lines (none on a panic; stops early after QUIT). -/
def runConn (w : World) (c : Conn) : List LineInput → Option Conn
  | [] => some c
  | inp :: rest =>
    match stepLine w inp c with
    | none => none
    | some (c2, _, cont) =>
      if cont then runConn w c2 rest else some c2

/-- Index of the first occurrence of `pat` as a contiguous sublist of
`cs` (Go bytes.Index for a multi-byte needle). -/
def findSubstr (pat : List Char) : List Char → Option Nat
  | [] => if pat.isPrefixOf ([] : List Char) then some 0 else none
  | c :: rest =>
    if pat.isPrefixOf (c :: rest) then some 0
    else (findSubstr pat rest).map (· + 1)

/-- Character class of the captured local-part token in the send-as
tag. -/
def isLocalPartChar (c : Char) : Bool :=
  c.isAlphanum ∨ c = '.' ∨ c = '-' ∨ c = '_'

/-- Modelled from the spec: the SendAsSubject regular expression,
declared in a repository file not under src/ — a subject-line tag of
the shape `[send-as:local]` whose single submatch captures the
local-part token; FindSubmatchIndex returns the byte offsets of the
whole tag and of the captured token, or nil when the header carries no
tag. -/
def SendAsSubjectMatch (header : String) : Option SendAsMatch :=
  let cs := header.data
  match findSubstr "[send-as:".data cs with
  | none => none
  | some i =>
    let afterTag := (cs.drop (i + 9)).takeWhile isLocalPartChar
    if afterTag = [] then none
    else
      match (cs.drop (i + 9)).drop afterTag.length with
      | ']' :: _ =>
        some { matchStart := i
               matchEnd := i + 9 + afterTag.length + 1
               userStart := i + 9
               userEnd := i + 9 + afterTag.length }
      | _ => none

/-- Concrete instantiation of the mail.ParseAddress oracle for witness
runs: accepts the angle-bracket addr-spec form that parsePath produces
and strips the brackets. -/
def bracketParse (s : String) : Option MailAddress :=
  match s.data with
  | '<' :: rest =>
    if rest.getLast? = some '>' then some ⟨"", String.mk rest.dropLast⟩ else none
  | _ => none

/-- A server collaborator that recognises no address as locally served
(every MAIL classifies as inbound) and accepts every delivery. -/
def inboundServer : Server :=
  { name := "srv.example"
    tlsConfigAvailable := true
    verifyAddress := fun _ => ⟨550, "unknown"⟩
    authenticate := fun _ _ _ => true
    deliverMessage := fun _ => none }

/-- A server collaborator that recognises every address as locally
served (MAIL triggers the relay-authorisation check). -/
def localServer : Server :=
  { name := "srv.example"
    tlsConfigAvailable := true
    verifyAddress := fun _ => ReplyOK
    authenticate := fun _ _ _ => true
    deliverMessage := fun _ => none }

/-- Oracle bundle built around `inboundServer`. -/
def demoWorld : World :=
  { server := inboundServer
    parseAddress := bracketParse
    base64Decode := fun _ => none
    findSendAs := SendAsSubjectMatch }

/-- Oracle bundle built around `localServer`. -/
def localWorld : World :=
  { server := localServer
    parseAddress := bracketParse
    base64Decode := fun _ => none
    findSendAs := SendAsSubjectMatch }

/-- A command-line input with fixed benign oracle outcomes: successful
handshake, a one-line message body, fixed generated strings. -/
def mkLineInput (line : String) : LineInput :=
  { line := line
    authLine := none
    handshakeOK := true
    dataBody := some "x\n"
    envId := "id1"
    dateStr := "Mon, 02 Jan 2006 15:04:05 -0700"
    lookupRemote := "client.example [1.2.3.4]"
    tlsTransport := "TLSv1.3 cipher=TLS_AES_128_GCM_SHA256" }

/-- A demonstration envelope reaching getReceivedInfo with one
recipient. -/
def demoEnvelope : Envelope :=
  { remoteAddr := "1.2.3.4"
    ehlo := "client.example"
    mailFrom := ⟨"", "a@b.com"⟩
    rcptTo := [⟨"", "x@y.com"⟩]
    received := "Mon, 02 Jan 2006 15:04:05 -0700"
    id := "id1"
    data := "x\n" }

/-- C3: the claim says a processed HELO leaves isESMTP false so the
trace header of a message received without TLS carries the token SMTP.
In the source the HELO case assigns esmtp = false and then falls
through into the EHLO case, which assigns esmtp = true, so after HELO
the flag is true and the trace header of the session reads
`with ESMTP`: evaluated here on the concrete line `HELO
client.example` from a fresh connection. -/
theorem helo_esmtp_flag_fallthrough :
    (stepLine demoWorld (mkLineInput "HELO client.example") (newConnection "1.2.3.4")).map
      (fun r =>
        (r.1.esmtp,
         getReceivedInfo demoWorld (mkLineInput "HELO client.example") r.1 demoEnvelope)) =
    some (true,
      "Received: from client.example (client.example [1.2.3.4])\r\n        by srv.example (mailpopbox) with ESMTP id id1\r\n        for <x@y.com>\r\n        (using PLAINTEXT);\r\n        Mon, 02 Jan 2006 15:04:05 -0700\r\n") := by
  decide

/-- C5: the claim says that whenever the DATA handler constructs an
Envelope the sender is non-null and the state is Recipient with a
recipient present, for every command sequence.  The sequence EHLO,
MAIL, malformed EHLO (which clears the sender but, being a syntax
error, leaves the state at Mail), RCPT (delivery is unknown, so
verification cannot block it), DATA reaches envelope construction in
stateRecipient with conn.mailFrom nil, and the construction
dereferences the nil sender: the session run panics (none). -/
theorem data_with_nil_sender_panics :
    runSession demoWorld (newConnection "1.2.3.4")
        [mkLineInput "EHLO client.example", mkLineInput "MAIL FROM:<a@b.com>",
         mkLineInput "EHLO", mkLineInput "RCPT TO:<c@d.com>", mkLineInput "DATA"] =
      none ∧
    (runConn demoWorld (newConnection "1.2.3.4")
        [mkLineInput "EHLO client.example", mkLineInput "MAIL FROM:<a@b.com>",
         mkLineInput "EHLO", mkLineInput "RCPT TO:<c@d.com>"]).map
      (fun c => (c.state, c.mailFrom, c.rcptTo.length)) =
      some (.recipient, none, 1) := by
  decide

/-- The outbound connection of the C10 demonstration, authenticated as
alice@example.com. -/
def sendAsConn : Conn :=
  { newConnection "1.2.3.4" with delivery := .outbound, authc := "alice@example.com" }

/-- The C10 message body: a Subject header carrying a send-as tag, a
second unrelated header, and no From header anywhere. -/
def sendAsEnvelope : Envelope :=
  { remoteAddr := "1.2.3.4"
    ehlo := "client.example"
    mailFrom := ⟨"", "alice@example.com"⟩
    rcptTo := [⟨"", "x@y.com"⟩]
    received := "Mon, 02 Jan 2006 15:04:05 -0700"
    id := "id1"
    data := "Subject: hi [send-as:bob]\nX-Other: y\n\nbody" }

/-- C10: the claim says a body lacking a From header makes the
send-as rewriter abort with message data and envelope sender
unmodified.  In the source fromIdx and subjectIdx are declared as
`var fromIdx, subjectIdx int` — initialised to 0, never to -1 — so the
`== -1` abort checks can never fire; on this body without a From
header the rewriter still strips the tag from the Subject header and
replaces the envelope sender. -/
theorem sendas_missing_from_still_rewrites :
    handleSendAs demoWorld sendAsConn sendAsEnvelope =
      { sendAsEnvelope with
          data := "Subject: hi \nX-Other: y\n\nbody"
          mailFrom := ⟨"", "bob@example.com"⟩ } := by
  decide

/-- The domain of the empty (unauthenticated) authcid is empty. -/
theorem domain_of_empty : DomainForAddressString "" = "" := by decide

/-- C1: a MAIL FROM parsed in Initial state whose sender VerifyAddress
accepts is answered `550 not authenticated` with delivery
classification and protocol state unchanged, unless the session is
authenticated (authc non-empty) and the sender's domain equals the
authenticated identity's domain, in which case the delivery becomes
outbound and the command succeeds into stateMail; a sender
VerifyAddress rejects always classifies as inbound and succeeds into
stateMail regardless of authentication.  The hypothesis that the
parsed sender has a non-empty domain reflects mail.ParseAddress, which
only yields addr-specs with a non-empty domain part. -/
theorem doMAIL_classifies_sender (w : World) (c : Conn) (s : String) (addr : MailAddress)
    (hstate : c.state = .initial)
    (hpath : parsePath c "MAIL FROM:" = (s, ReplyOK))
    (haddr : w.parseAddress s = some addr)
    (hdom : DomainForAddress addr ≠ "") :
    (w.server.verifyAddress addr = ReplyOK →
      (¬(c.authc ≠ "" ∧ DomainForAddress addr = DomainForAddressString c.authc) →
        doMAIL w c = ({ c with mailFrom := some addr }, [.reply 550 "not authenticated"])) ∧
      ((c.authc ≠ "" ∧ DomainForAddress addr = DomainForAddressString c.authc) →
        doMAIL w c =
          ({ c with mailFrom := some addr, delivery := .outbound, state := .mail },
           [replyOut ReplyOK]))) ∧
    (w.server.verifyAddress addr ≠ ReplyOK →
      doMAIL w c =
        ({ c with mailFrom := some addr, delivery := .inbound, state := .mail },
         [replyOut ReplyOK])) := by
  refine ⟨fun hverify => ⟨fun hnot => ?_, fun hmatch => ?_⟩, fun hverify => ?_⟩
  · have hne : DomainForAddress addr ≠ DomainForAddressString c.authc := by
      by_cases hac : c.authc = ""
      · rw [hac, domain_of_empty]; exact hdom
      · intro heq; exact hnot ⟨hac, heq⟩
    simp [doMAIL, hstate, hpath, haddr, hne, hverify]
  · obtain ⟨hac, heq⟩ := hmatch
    simp [doMAIL, hstate, hpath, haddr, heq, hverify]
  · simp [doMAIL, hstate, hpath, haddr, hverify]

/-- The Initial-state connection of the C1 witness, unauthenticated,
with a locally-served sender on the line. -/
def mailWitnessConn : Conn :=
  { newConnection "1.2.3.4" with state := .initial, line := "MAIL FROM:<a@b.com>" }

/-- Witness for C1: on `localWorld` every sender verifies, the session
is unauthenticated, so the concrete MAIL FROM is rejected 550 with
state and delivery untouched. -/
theorem doMAIL_classifies_sender_witness :
    doMAIL localWorld mailWitnessConn =
      ({ mailWitnessConn with mailFrom := some ⟨"", "a@b.com"⟩ },
       [.reply 550 "not authenticated"]) :=
  ((doMAIL_classifies_sender localWorld mailWitnessConn "<a@b.com>" ⟨"", "a@b.com"⟩
      (by decide) (by decide) (by decide) (by decide)).1 (by decide)).1 (by decide)

/-- C2: a RCPT TO with a syntactically valid address issued in Mail or
Recipient state: under an inbound delivery a recipient VerifyAddress
rejects is never appended and the rejection reply is returned with the
connection unchanged — over every session state, hence over every
reachable one; under an outbound delivery the recipient is appended
and the command succeeds regardless of the VerifyAddress result. -/
theorem doRCPT_verify_policy (w : World) (c : Conn) (s : String) (addr : MailAddress)
    (hstate : c.state = .mail ∨ c.state = .recipient)
    (hpath : parsePath c "RCPT TO:" = (s, ReplyOK))
    (haddr : w.parseAddress s = some addr) :
    (c.delivery = .inbound → w.server.verifyAddress addr ≠ ReplyOK →
      doRCPT w c = (c, [replyOut (w.server.verifyAddress addr)])) ∧
    (c.delivery = .outbound →
      doRCPT w c =
        ({ c with rcptTo := c.rcptTo ++ [addr], state := .recipient },
         [replyOut ReplyOK])) := by
  have hguard : ¬(c.state ≠ .mail ∧ c.state ≠ .recipient) := by
    rcases hstate with h | h <;> simp [h]
  constructor
  · intro hdeliv hverify
    simp [doRCPT, hguard, hpath, haddr, hdeliv, hverify]
  · intro hdeliv
    simp [doRCPT, hguard, hpath, haddr, hdeliv]

/-- The Mail-state inbound connection of the C2 witness. -/
def rcptWitnessConn : Conn :=
  { newConnection "1.2.3.4" with
      state := .mail
      delivery := .inbound
      mailFrom := some ⟨"", "a@b.com"⟩
      line := "RCPT TO:<c@d.com>" }

/-- Witness for C2: on `demoWorld` the verifier rejects the concrete
recipient of an inbound transaction, so RCPT forwards the rejection
and appends nothing. -/
theorem doRCPT_verify_policy_witness :
    doRCPT demoWorld rcptWitnessConn = (rcptWitnessConn, [.reply 550 "unknown"]) :=
  (doRCPT_verify_policy demoWorld rcptWitnessConn "<c@d.com>" ⟨"", "c@d.com"⟩
      (Or.inl (by decide)) (by decide) (by decide)).1 (by decide) (by decide)

/-- C4 counterexample: the claim says that after a successful STARTTLS
and the forced fresh EHLO, a second STARTTLS in the same connection is
rejected.  Running EHLO, STARTTLS (handshake succeeds), EHLO and then
a second STARTTLS, the second STARTTLS is answered 220 and the
handshake is re-run (state returns to New): doSTARTTLS checks only the
state, the ESMTP flag and TLS-config availability, never whether TLS
is already active. -/
theorem starttls_second_attempt_accepted :
    ((runConn demoWorld (newConnection "1.2.3.4")
        [mkLineInput "EHLO client.example", mkLineInput "STARTTLS",
         mkLineInput "EHLO client.example"]).bind
      (stepLine demoWorld (mkLineInput "STARTTLS"))).map
      (fun r => (r.2.1, r.1.state, r.1.tls)) =
    some ([OutEvent.reply 220 "initiate TLS connection"], SState.new, true) := by
  decide

/-- C4 as amended: after a successful STARTTLS the state resets to New
and the TLS metadata persists, but STARTTLS is not once-only — in any
Initial-state session with ESMTP negotiated and a TLS configuration
available, a STARTTLS whose handshake succeeds is accepted with 220
and re-runs the upgrade, whether or not TLS is already active (the
handler never consults the TLS field). -/
theorem doSTARTTLS_no_reuse_guard (srv : Server) (inp : LineInput) (c : Conn)
    (hstate : c.state = .initial)
    (hesmtp : c.esmtp = true)
    (hcfg : srv.tlsConfigAvailable = true)
    (hshake : inp.handshakeOK = true) :
    doSTARTTLS srv inp c =
      ({ c with state := .new, tls := true },
       [.reply 220 "initiate TLS connection"]) := by
  simp [doSTARTTLS, hstate, hesmtp, hcfg, hshake]

/-- The post-upgrade Initial-state connection of the C4 witness: TLS
is already active. -/
def starttlsWitnessConn : Conn :=
  { newConnection "1.2.3.4" with
      state := .initial
      esmtp := true
      tls := true
      ehlo := "client.example"
      line := "STARTTLS" }

/-- Witness for C4 as amended: a second STARTTLS on an
already-encrypted Initial-state session is accepted and re-run. -/
theorem doSTARTTLS_no_reuse_guard_witness :
    doSTARTTLS demoWorld.server (mkLineInput "STARTTLS") starttlsWitnessConn =
      ({ starttlsWitnessConn with state := .new, tls := true },
       [.reply 220 "initiate TLS connection"]) :=
  doSTARTTLS_no_reuse_guard demoWorld.server (mkLineInput "STARTTLS") starttlsWitnessConn
    (by decide) (by decide) (by decide) (by decide)

/-- C6: an inbound DATA transaction whose DeliverMessage call returns
a rejection reply forwards that reply verbatim (same code, same
message) and returns with the connection exactly as it was: state
still Recipient, sender, recipients and delivery classification all
untouched. -/
theorem doDATA_reject_forwards_verbatim (w : World) (inp : LineInput) (c : Conn)
    (sender : MailAddress) (body : String) (r : ReplyLine)
    (hstate : c.state = .recipient)
    (hdeliv : c.delivery = .inbound)
    (hfrom : c.mailFrom = some sender)
    (hbody : inp.dataBody = some body)
    (hreject : w.server.deliverMessage (dataEnvelope w inp c sender body) = some r) :
    doDATA w inp c =
      some (c, [.reply 354 "Start mail input; end with <CRLF>.<CRLF>",
                replyOut r]) := by
  simp [doDATA, hstate, hdeliv, hfrom, hbody, hreject]

/-- A server collaborator that rejects every local delivery with a
552 reply. -/
def rejectingServer : Server :=
  { inboundServer with deliverMessage := fun _ => some ⟨552, "mailbox full"⟩ }

/-- Oracle bundle built around `rejectingServer`. -/
def rejectingWorld : World := { demoWorld with server := rejectingServer }

/-- The Recipient-state inbound connection of the C6 witness. -/
def dataWitnessConn : Conn :=
  { newConnection "1.2.3.4" with
      state := .recipient
      delivery := .inbound
      ehlo := "client.example"
      mailFrom := some ⟨"", "a@b.com"⟩
      rcptTo := [⟨"", "x@y.com"⟩]
      line := "DATA" }

/-- Witness for C6: the concrete 552 rejection is forwarded verbatim
and the connection is returned unchanged. -/
theorem doDATA_reject_forwards_verbatim_witness :
    doDATA rejectingWorld (mkLineInput "DATA") dataWitnessConn =
      some (dataWitnessConn,
        [.reply 354 "Start mail input; end with <CRLF>.<CRLF>",
         .reply 552 "mailbox full"]) :=
  doDATA_reject_forwards_verbatim rejectingWorld (mkLineInput "DATA") dataWitnessConn
    ⟨"", "a@b.com"⟩ "x\n" ⟨552, "mailbox full"⟩
    (by decide) (by decide) (by decide) (by decide) (by decide)

/-- The Initial-state encrypted connection of the C7 counterexample,
holding the line `AUTH PLAIN` with no trailing space. -/
def authBareConn : Conn :=
  { newConnection "1.2.3.4" with
      state := .initial
      esmtp := true
      tls := true
      line := "AUTH PLAIN" }

/-- C7 counterexample: the claim says an AUTH PLAIN command with an
empty initial response is answered with a 334 continuation prompt.
The source additionally requires the line's last byte to be a space
when only two tokens scanned: the bare line `AUTH PLAIN` is answered
with the 501 syntax error, not the prompt. -/
theorem auth_plain_bare_line_rejected :
    doAUTH demoWorld (mkLineInput "AUTH PLAIN") authBareConn =
      (authBareConn, [.reply 501 "syntax error"]) := by
  decide

/-- C7 as amended: in an unauthenticated Initial-state session under
TLS, `AUTH PLAIN <base64>` decodes the inline payload directly; the
two-step form — 334 prompt, then exactly one further line read as the
payload — is taken only when the scan finds two tokens and the line
ends in a space byte (`AUTH PLAIN `); the bare line `AUTH PLAIN`
without the trailing space is a 501 syntax error. -/
theorem doAUTH_plain_forms (w : World) (inp : LineInput) (c : Conn) (tok : String)
    (hstate : c.state = .initial)
    (htls : c.tls = true)
    (hauthc : c.authc = "") :
    (goFields c.line = ["AUTH", "PLAIN", tok] →
      doAUTH w inp c = authFinish w c [] (w.base64Decode tok)) ∧
    (goFields c.line = ["AUTH", "PLAIN"] → c.line.data.getLast? = some ' ' →
      doAUTH w inp c =
        (match inp.authLine with
         | none => (c, [.reply 334 " ", replyOut ReplyBadSyntax])
         | some contLine => authFinish w c [.reply 334 " "] (w.base64Decode contLine))) ∧
    (goFields c.line = ["AUTH", "PLAIN"] → c.line.data.getLast? ≠ some ' ' →
      doAUTH w inp c = (c, [replyOut ReplyBadSyntax])) := by
  refine ⟨fun htoks => ?_, fun htoks hsp => ?_, fun htoks hsp => ?_⟩
  · have hne : tok ≠ "" := goFields_ne_empty c.line tok (by rw [htoks]; simp)
    simp [doAUTH, hstate, htls, hauthc, htoks, hne]
  · cases hal : inp.authLine <;> simp [doAUTH, hstate, htls, hauthc, htoks, hsp, hal]
  · simp [doAUTH, hstate, htls, hauthc, htoks, hsp]

/-- The Initial-state encrypted connection of the C7 witness, holding
an inline AUTH PLAIN payload. -/
def authInlineConn : Conn :=
  { newConnection "1.2.3.4" with
      state := .initial
      esmtp := true
      tls := true
      line := "AUTH PLAIN QQBCAEM=" }

/-- Witness for C7 as amended: the inline form hands its token to the
base64 decoder without emitting a prompt. -/
theorem doAUTH_plain_forms_witness :
    doAUTH demoWorld (mkLineInput "AUTH PLAIN QQBCAEM=") authInlineConn =
      authFinish demoWorld authInlineConn [] (demoWorld.base64Decode "QQBCAEM=") :=
  (doAUTH_plain_forms demoWorld (mkLineInput "AUTH PLAIN QQBCAEM=") authInlineConn
      "QQBCAEM=" (by decide) (by decide) (by decide)).1 (by decide)

/-- Every parsePath failure reply is the 501 syntax error or the 500
unrecognized-command reply. -/
theorem parsePath_reply_cases (c : Conn) (cmd : String) :
    (parsePath c cmd).2 = ReplyOK ∨ (parsePath c cmd).2 = ReplyBadSyntax ∨
      (parsePath c cmd).2 = ⟨500, "unrecognized command"⟩ := by
  unfold parsePath
  split
  · right; left; rfl
  · split
    · right; right; rfl
    · cases h : indexOfChar (strDrop c.line (strLen cmd)).data '>' with
      | none => simp [h]
      | some idx => simp [h]

/-- C8 counterexample: the claim says no syntactically malformed
command mutates the transaction-scoped fields.  After EHLO and a MAIL
that set the sender and the inbound classification, the malformed line
`EHLO` (a single token) is answered 501 with the protocol state
unchanged — yet the sender and the delivery classification have been
cleared, because doEHLO resets the buffers before parsing. -/
theorem ehlo_syntax_error_clears_transaction :
    (runConn demoWorld (newConnection "1.2.3.4")
        [mkLineInput "EHLO client.example", mkLineInput "MAIL FROM:<a@b.com>"]).map
      (fun c => (c.state, c.mailFrom, c.delivery)) =
      some (.mail, some ⟨"", "a@b.com"⟩, .inbound) ∧
    ((runConn demoWorld (newConnection "1.2.3.4")
        [mkLineInput "EHLO client.example", mkLineInput "MAIL FROM:<a@b.com>"]).bind
      (stepLine demoWorld (mkLineInput "EHLO"))).map
      (fun r => (r.1.state, r.1.mailFrom, r.1.delivery, r.2.1)) =
      some (.mail, none, .unknown, [.reply 501 "syntax error"]) := by
  decide

/-- C8 as amended: a malformed command is answered with a 500/501-class
reply and the connection keeps reading commands; a RCPT whose path or
address fails to parse mutates nothing, but a malformed EHLO/HELO —
although answered 501 with the protocol state unchanged — still clears
senderAddress, recipients and deliveryKind, because the transaction
reset precedes the parse. -/
theorem syntax_error_behaviour (w : World) (c : Conn) (s t : String) (r : ReplyLine) :
    ((c.state = .mail ∨ c.state = .recipient) → parsePath c "RCPT TO:" = (s, r) →
      r ≠ ReplyOK →
      doRCPT w c = (c, [replyOut r]) ∧
        (r = ReplyBadSyntax ∨ r = ⟨500, "unrecognized command"⟩)) ∧
    ((c.state = .mail ∨ c.state = .recipient) → parsePath c "RCPT TO:" = (s, ReplyOK) →
      w.parseAddress s = none →
      doRCPT w c = (c, [replyOut ReplyBadSyntax])) ∧
    (goFields c.line = [t] →
      doEHLO w.server c = (resetBuffers c, [replyOut ReplyBadSyntax]) ∧
        (resetBuffers c).state = c.state) ∧
    (∀ (inp : LineInput) (t2 : String) (res : Conn × List OutEvent × Bool),
      (goFields inp.line).head? = some t2 →
      (strToUpper t2 = "RCPT" ∨ strToUpper t2 = "EHLO") →
      stepLine w inp c = some res → res.2.2 = true) := by
  refine ⟨fun hstate hpath hne => ?_, fun hstate hpath haddr => ?_,
          fun htoks => ?_, fun inp t2 res htok hcmd hstep => ?_⟩
  · have hguard : ¬(c.state ≠ .mail ∧ c.state ≠ .recipient) := by
      rcases hstate with h | h <;> simp [h]
    have hcases := parsePath_reply_cases c "RCPT TO:"
    rw [hpath] at hcases
    refine ⟨by simp [doRCPT, hguard, hpath, hne], ?_⟩
    rcases hcases with h | h
    · exact absurd h hne
    · exact h
  · have hguard : ¬(c.state ≠ .mail ∧ c.state ≠ .recipient) := by
      rcases hstate with h | h <;> simp [h]
    simp [doRCPT, hguard, hpath, haddr]
  · constructor
    · simp [doEHLO, resetBuffers, htoks]
    · rfl
  · rcases hcmd with h | h
    · simp only [stepLine] at hstep
      simp [htok, h] at hstep
      rw [← hstep]
    · simp only [stepLine] at hstep
      simp [htok, h] at hstep
      rw [← hstep]

/-- Witness for C8 as amended: a RCPT whose address the parse oracle
rejects (no angle brackets) leaves the connection untouched and
replies 501, in the concrete Mail-state session. -/
theorem syntax_error_behaviour_witness :
    doRCPT demoWorld { rcptWitnessConn with line := "RCPT TO:bogus>" } =
      ({ rcptWitnessConn with line := "RCPT TO:bogus>" },
       [.reply 501 "syntax error"]) :=
  (syntax_error_behaviour demoWorld { rcptWitnessConn with line := "RCPT TO:bogus>" }
      "bogus>" "EHLO" ReplyOK).2.1 (Or.inl (by decide)) (by decide) (by decide)

/-- C9: a command line whose first token is QUIT (in any letter case)
makes the loop write exactly `221 Goodbye`, close the output, and
stop: whatever further lines follow are never read or answered. -/
theorem quit_terminates_session (w : World) (inp : LineInput) (rest : List LineInput)
    (c : Conn) (t : String)
    (htok : (goFields inp.line).head? = some t)
    (hq : strToUpper t = "QUIT") :
    runSession w c (inp :: rest) = some [.reply 221 "Goodbye", .closed] := by
  simp [runSession, stepLine, htok, hq]

/-- Witness for C9: the concrete lower-case quit line ends the session
after exactly the goodbye reply even with a pending NOOP line. -/
theorem quit_terminates_session_witness :
    runSession demoWorld (newConnection "1.2.3.4")
        [mkLineInput "quit", mkLineInput "NOOP"] =
      some [.reply 221 "Goodbye", .closed] :=
  quit_terminates_session demoWorld (mkLineInput "quit") [mkLineInput "NOOP"]
    (newConnection "1.2.3.4") "quit" (by decide) (by decide)

end Mailpopbox
